import Mathlib

/-
Verification development for the serial-device connection manager of the
pythonLibs repository (src/com_manager/SerialManager_libs).

The embedding translates:
  - portmonitor.py      : PortMonitor._scan
  - serialmanager.py    : SerialManager (state machine, auto-connect loop,
                          disconnect, send, port-added/removed handlers,
                          transport error handler), BlockingIdentifier,
                          SimpleIdentifier.

Qt signal/slot wiring is modelled explicitly: emitted events are returned as
lists, and the two dynamic subscriptions the manager manipulates
(identifier.identified/failed -> manager slots, serial.readyRead -> slots)
are tracked as boolean fields.  Transport behaviour (whether open succeeds,
what response arrives) is an explicit environment parameter.
-/

set_option autoImplicit false

/-- State of the manager, from `SerialManagerState` in serialmanager.py. -/
inductive SMState where
  | Disconnected
  | Identifying
  | Connected
deriving DecidableEq, Repr

/-- A `QSerialPortInfo` snapshot: port name plus optional vendor and product
identifiers (`hasVendorIdentifier`/`vendorIdentifier` is modelled by an
`Option`). -/
structure PortInfo where
  portName : String
  vendorId : Option Nat
  productId : Option Nat
deriving DecidableEq, Repr

/-- Signals of the `SerialManager` object. -/
inductive Event where
  | connected (port : String)
  | disconnected
  | dataReceived (data : List Nat)
  | errorOccurred (msg : String)
deriving DecidableEq, Repr

/-- Signals of a `SerialDeviceIdentifier` object. -/
inductive IdSignal where
  | identified
  | failed
deriving DecidableEq, Repr

/-- ASCII whitespace bytes recognised by Python `bytes.strip()`. -/
def isAsciiSpace (b : Nat) : Bool :=
  b == 9 || b == 10 || b == 11 || b == 12 || b == 13 || b == 32

/-- Python `bytes.strip()` with no argument: removes leading AND trailing
ASCII whitespace from a byte string. -/
def pythonStrip (bs : List Nat) : List Nat :=
  ((bs.dropWhile isAsciiSpace).reverse.dropWhile isAsciiSpace).reverse

/-- Trimming of trailing whitespace only (this follows the wording of the
specification, which says the response has trailing whitespace trimmed; it is
compared against `pythonStrip`, the translation of the code). -/
def trimTrailing (bs : List Nat) : List Nat :=
  (bs.reverse.dropWhile isAsciiSpace).reverse

/-- `BlockingIdentifier.start`: writes the identification command, then waits
up to the timeout for data (`waitForReadyRead`).  The environment outcome is
`response`: `none` when the wait times out with no data, `some r` when the
bytes `r` arrive inside the window.  Returns the bytes written to the
transport and the identifier signals emitted, in order. -/
def blocking_start (idCommand expected : List Nat) (response : Option (List Nat)) :
    List (List Nat) × List IdSignal :=
  match response with
  | none => ([idCommand], [IdSignal.failed])
  | some r =>
    if pythonStrip r = expected then ([idCommand], [IdSignal.identified])
    else ([idCommand], [IdSignal.failed])

/-- `BlockingIdentifier.start` as the specification words it: the received
response has only its trailing whitespace trimmed before the byte-for-byte
comparison. -/
def blocking_start_spec_trailing (idCommand expected : List Nat)
    (response : Option (List Nat)) : List (List Nat) × List IdSignal :=
  match response with
  | none => ([idCommand], [IdSignal.failed])
  | some r =>
    if trimTrailing r = expected then ([idCommand], [IdSignal.identified])
    else ([idCommand], [IdSignal.failed])

/-- Mutable state of a `SimpleIdentifier` (the non-blocking variant): whether
its one-shot timer is armed and whether its `_on_ready_read` slot is connected
to the transport `readyRead` signal. -/
structure SimpleIdState where
  timerActive : Bool
  readyReadHooked : Bool
deriving DecidableEq, Repr

/-- `SimpleIdentifier.start`: writes the command, arms the single-shot timer
and (re)connects `_on_ready_read` to the transport `readyRead` signal. -/
def simple_start (s : SimpleIdState) : SimpleIdState :=
  { s with timerActive := true, readyReadHooked := true }

/-- `SimpleIdentifier._on_ready_read`: stops the timer, disconnects the
`readyRead` subscription, reads and strips the response and emits exactly one
of `identified`/`failed`. -/
def simple_on_ready_read (expected response : List Nat) (s : SimpleIdState) :
    SimpleIdState × List IdSignal :=
  let s1 : SimpleIdState := { s with timerActive := false, readyReadHooked := false }
  if pythonStrip response = expected then (s1, [IdSignal.identified])
  else (s1, [IdSignal.failed])

/-- `SimpleIdentifier._on_timeout`: the single-shot timer fired (so it is no
longer active), the `readyRead` subscription is removed and `failed` is
emitted. -/
def simple_on_timeout (s : SimpleIdState) : SimpleIdState × List IdSignal :=
  ({ s with timerActive := false, readyReadHooked := false }, [IdSignal.failed])

/-- An externally driven occurrence for a non-blocking identification attempt:
either data arrives on the transport or the timeout timer fires. -/
inductive IdOcc where
  | dataReady (response : List Nat)
  | timerFire
deriving DecidableEq, Repr

/-- Whether an occurrence can invoke an identifier slot: `readyRead` reaches
`_on_ready_read` only while that slot is connected, and the timer callback
runs only while the timer is armed. -/
def id_occ_enabled (s : SimpleIdState) : IdOcc → Bool
  | IdOcc.dataReady _ => s.readyReadHooked
  | IdOcc.timerFire => s.timerActive

/-- Runs a sequence of occurrences against a `SimpleIdentifier`; disabled
occurrences do not invoke the corresponding slot (Qt delivers a signal only to
currently connected slots, and a stopped timer does not fire). -/
def run_id_occs (expected : List Nat) (s : SimpleIdState) :
    List IdOcc → SimpleIdState × List IdSignal
  | [] => (s, [])
  | o :: os =>
    if id_occ_enabled s o then
      let r :=
        match o with
        | IdOcc.dataReady resp => simple_on_ready_read expected resp s
        | IdOcc.timerFire => simple_on_timeout s
      let r2 := run_id_occs expected r.1 os
      (r2.1, r.2 ++ r2.2)
    else run_id_occs expected s os

/-- `PortMonitor._scan`, first loop: a `port_added` is emitted for every port
of the new snapshot whose name is not in the remembered name set. -/
def scan_added (known : List String) (ports : List PortInfo) : List PortInfo :=
  ports.filter (fun p => !(known.contains p.portName))

/-- `PortMonitor._scan`, second loop, translated exactly as written: it
iterates over the NEW snapshot `ports` and emits `port_removed` for a port
whose name lies in `known - current_names`, where `current_names` is the name
set of that same snapshot. -/
def scan_removed (known : List String) (ports : List PortInfo) : List PortInfo :=
  ports.filter
    (fun p => known.contains p.portName &&
      !((ports.map PortInfo.portName).contains p.portName))

/-- `PortMonitor._scan`, final assignment: the remembered name set becomes the
name set of the new snapshot (a list of names with the same membership). -/
def scan_new_known (ports : List PortInfo) : List String :=
  ports.map PortInfo.portName

/-- State of a `SerialManager` object: the `_state` machine value, the stored
VID/PID filters of the current auto-connect cycle, the `QSerialPort` handle
(whether it is open and the port name it was last set to), the candidate queue
`_available_ports`, and the two dynamic signal subscriptions the manager
manipulates: whether the identifier `identified`/`failed` signals are
connected to the manager slots (`_identify_device` connects them,
`_on_identified` disconnects them), and whether `_on_ready_read` is connected
to the serial `readyRead` signal. -/
structure Manager where
  state : SMState
  vid : Option Nat
  pid : Option Nat
  serialOpen : Bool
  serialPort : String
  availablePorts : List PortInfo
  identifierConnected : Bool
  readyReadConnected : Bool
deriving DecidableEq, Repr

/-- Behaviour of the external transport and identification collaborators
during one run: whether `QSerialPort.open` succeeds for a candidate port, the
synchronous outcome of `identifier.start` on a port (`some true` - a blocking
identifier emits `identified` before returning, `some false` - it emits
`failed` before returning, `none` - a non-blocking identifier returns with the
outcome still pending), and the `errorString` reported for a failed open. -/
structure SerialEnv where
  openOk : PortInfo → Bool
  syncOutcome : String → Option Bool
  errorString : String

/-- The manager as constructed: `Disconnected`, transport closed, empty
candidate queue, `readyRead` connected to `_on_ready_read`. -/
def initManager : Manager :=
  { state := SMState.Disconnected
    vid := none
    pid := none
    serialOpen := false
    serialPort := ""
    availablePorts := []
    identifierConnected := false
    readyReadConnected := true }

/-- `SerialManager._port_matches_filters`: a stored VID (resp. PID) filter
requires the candidate to carry an equal vendor (resp. product) identifier. -/
def port_matches_filters (vid pid : Option Nat) (p : PortInfo) : Bool :=
  (match vid with
   | some v =>
     match p.vendorId with
     | some pv => pv == v
     | none => false
   | none => true)
  &&
  (match pid with
   | some w =>
     match p.productId with
     | some pw => pw == w
     | none => false
   | none => true)

/-- `SerialManager.disconnect` specialised to the one call site where
`self._state == IDENTIFYING` (the identifier `failed` slot, connected in
`_identify_device`): the transport is closed if open and the state set to
`DISCONNECTED`; since the previous state is `IDENTIFYING`, neither
`disconnected.emit()` nor `_try_next_port()` runs.  The lemma
`disconnect_eq_from_identifying` below proves this equal to the full
`disconnect`; the specialisation only breaks the syntactic recursion
`disconnect -> _try_next_port -> _identify_device -> disconnect`. -/
def disconnectFromIdentifying (m : Manager) : Manager × List Event :=
  ({ m with serialOpen := false, state := SMState.Disconnected }, [])

/-- `SerialManager._on_identified`: state becomes `CONNECTED`, the candidate
queue is cleared, the identifier signals are disconnected from the manager
slots, `_on_ready_read` is reconnected, and `connected` is emitted with the
current port name. -/
def on_identified (m : Manager) : Manager × List Event :=
  ({ m with
      state := SMState.Connected
      availablePorts := []
      identifierConnected := false
      readyReadConnected := true },
   [Event.connected m.serialPort])

/-- `SerialManager._identify_device`: state becomes `IDENTIFYING`,
`_on_ready_read` is disconnected from `readyRead`, the identifier signals are
connected to the manager slots (`identified -> _on_identified`,
`failed -> disconnect`), and `identifier.start(self._serial)` is invoked.  A
blocking identifier emits its one signal inside `start`
(`env.syncOutcome = some _`); a non-blocking identifier returns with the
outcome pending (`none`). -/
def identify_device (env : SerialEnv) (m : Manager) : Manager × List Event :=
  let m1 : Manager :=
    { m with
        state := SMState.Identifying
        readyReadConnected := false
        identifierConnected := true }
  match env.syncOutcome m1.serialPort with
  | none => (m1, [])
  | some true => on_identified m1
  | some false => disconnectFromIdentifying m1

/-- The `while self._available_ports` loop of `SerialManager._try_next_port`:
pops candidates in order; one failing the filters is discarded; otherwise the
serial port is set to it and opened - an open failure emits `error_occurred`
and continues, an open success runs `_identify_device` and breaks. -/
def try_next_loop (env : SerialEnv) : List PortInfo → Manager → Manager × List Event
  | [], m => (m, [])
  | p :: rest, m =>
    if port_matches_filters m.vid m.pid p then
      if env.openOk p then
        identify_device env
          { m with availablePorts := rest, serialPort := p.portName, serialOpen := true }
      else
        let r := try_next_loop env rest { m with availablePorts := rest, serialPort := p.portName }
        (r.1, Event.errorOccurred env.errorString :: r.2)
    else
      try_next_loop env rest { m with availablePorts := rest }

/-- `SerialManager._try_next_port`: does nothing when the transport is already
open or the state is not `DISCONNECTED`; otherwise runs the candidate loop. -/
def try_next_port (env : SerialEnv) (m : Manager) : Manager × List Event :=
  if m.serialOpen = true ∨ m.state ≠ SMState.Disconnected then (m, [])
  else try_next_loop env m.availablePorts m

/-- `SerialManager.disconnect`: closes the transport if open, records the
previous state, sets the state to `DISCONNECTED`; when the previous state was
not `IDENTIFYING` it emits `disconnected` and then runs `_try_next_port`. -/
def disconnect (env : SerialEnv) (m : Manager) : Manager × List Event :=
  let m1 : Manager := { m with serialOpen := false }
  let m2 : Manager := { m1 with state := SMState.Disconnected }
  if m.state = SMState.Identifying then (m2, [])
  else
    let r := try_next_port env m2
    (r.1, Event.disconnected :: r.2)

/-- `SerialManager.auto_connect`: stores the VID/PID filters, snapshots the
currently available ports into the candidate queue, subscribes to the port
monitor `port_added` signal (the wiring through which `on_port_added` steps
below are delivered) and runs `_try_next_port`. -/
def auto_connect (env : SerialEnv) (available : List PortInfo)
    (vid pid : Option Nat) (m : Manager) : Manager × List Event :=
  try_next_port env { m with vid := vid, pid := pid, availablePorts := available }

/-- `SerialManager.send`: writes the bytes to the transport when it is open,
otherwise does nothing.  The second component lists the writes performed. -/
def send (m : Manager) (data : List Nat) : Manager × List (List Nat) :=
  if m.serialOpen then (m, [data]) else (m, [])

/-- `SerialManager._handle_port_removed`: when the transport is open on the
removed port name, calls `disconnect`; otherwise filters the removed name out
of the candidate queue. -/
def handle_port_removed (env : SerialEnv) (p : PortInfo) (m : Manager) :
    Manager × List Event :=
  if m.serialOpen = true ∧ m.serialPort = p.portName then disconnect env m
  else
    ({ m with availablePorts :=
        m.availablePorts.filter (fun q => q.portName != p.portName) }, [])

/-- `SerialManager._on_port_added`: appends the port to the candidate queue
unconditionally; when the state is `DISCONNECTED` and the queue now has
exactly one entry, runs `_try_next_port`. -/
def on_port_added (env : SerialEnv) (p : PortInfo) (m : Manager) :
    Manager × List Event :=
  if m.state = SMState.Disconnected ∧ (m.availablePorts ++ [p]).length = 1 then
    try_next_port env { m with availablePorts := m.availablePorts ++ [p] }
  else ({ m with availablePorts := m.availablePorts ++ [p] }, [])

/-- `SerialManager._on_error`: a real transport error (anything but `NoError`,
`isError = true`) builds the message - tagged as an identification failure
when the state is `IDENTIFYING` - then calls `disconnect` and emits
`error_occurred`. -/
def on_error (env : SerialEnv) (isError : Bool) (m : Manager) :
    Manager × List Event :=
  if isError then
    let msg :=
      if m.state = SMState.Identifying then "Identification failed: " ++ env.errorString
      else env.errorString
    let r := disconnect env m
    (r.1, r.2 ++ [Event.errorOccurred msg])
  else (m, [])

/-- Delivery of a pending identifier `identified` signal to the manager.  The
slot `_on_identified` runs only while the identifier signals are connected to
the manager (`identifierConnected`); `identified` itself can only be emitted
from `_on_ready_read`, i.e. after a `readyRead` of the transport, which
requires the port to be open - the `serialOpen` conjunct records that
transport fact. -/
def deliver_identified (m : Manager) : Manager × List Event :=
  if m.identifierConnected && m.serialOpen then on_identified m else (m, [])

/-- Delivery of a pending identifier `failed` signal to the manager: the slot
is `SerialManager.disconnect`, invoked only while the identifier signals are
connected to the manager. -/
def deliver_failed (env : SerialEnv) (m : Manager) : Manager × List Event :=
  if m.identifierConnected then disconnect env m else (m, [])

/-- One completed public operation or notification handler of the manager. -/
inductive Step where
  | autoConnect (available : List PortInfo) (vid pid : Option Nat)
  | disconnectCall
  | sendData (data : List Nat)
  | identOutcome (success : Bool)
  | portAdded (p : PortInfo)
  | portRemoved (p : PortInfo)
  | transportError (isError : Bool)

/-- Runs one step against the manager, returning the new manager state and
the events emitted during the step. -/
def Step.run (env : SerialEnv) (m : Manager) : Step → Manager × List Event
  | Step.autoConnect avail v q => auto_connect env avail v q m
  | Step.disconnectCall => disconnect env m
  | Step.sendData d => ((send m d).1, [])
  | Step.identOutcome true => deliver_identified m
  | Step.identOutcome false => deliver_failed env m
  | Step.portAdded p => on_port_added env p m
  | Step.portRemoved p => handle_port_removed env p m
  | Step.transportError b => on_error env b m

/-- The state/transport coupling invariant: the transport is open exactly when
the state is `Identifying` or `Connected`. -/
def stateOpenInv (m : Manager) : Prop :=
  m.serialOpen = true ↔ (m.state = SMState.Identifying ∨ m.state = SMState.Connected)

instance (m : Manager) : Decidable (stateOpenInv m) := by
  unfold stateOpenInv
  infer_instance

/-- The full `disconnect` agrees with its `disconnectFromIdentifying`
specialisation whenever the state is `Identifying`. -/
theorem disconnect_eq_from_identifying (env : SerialEnv) (m : Manager)
    (h : m.state = SMState.Identifying) :
    disconnect env m = disconnectFromIdentifying m := by
  simp [disconnect, disconnectFromIdentifying, h]


lemma identify_device_inv (env : SerialEnv) (m : Manager) (h : m.serialOpen = true) :
    stateOpenInv (identify_device env m).1 := by
  unfold identify_device
  cases ho : env.syncOutcome m.serialPort with
  | none => simp [ho, stateOpenInv, h]
  | some b =>
    cases b <;>
      simp [ho, stateOpenInv, on_identified, disconnectFromIdentifying, h]

lemma try_next_loop_inv (env : SerialEnv) :
    ∀ (ports : List PortInfo) (m : Manager),
      m.serialOpen = false → m.state = SMState.Disconnected →
      stateOpenInv (try_next_loop env ports m).1 := by
  intro ports
  induction ports with
  | nil =>
    intro m h1 h2
    simp [try_next_loop, stateOpenInv, h1, h2]
  | cons p rest ih =>
    intro m h1 h2
    simp only [try_next_loop]
    by_cases hf : port_matches_filters m.vid m.pid p = true
    · rw [if_pos hf]
      by_cases ho : env.openOk p = true
      · rw [if_pos ho]
        exact identify_device_inv env _ rfl
      · rw [if_neg ho]
        exact ih { m with availablePorts := rest, serialPort := p.portName } h1 h2
    · rw [if_neg hf]
      exact ih { m with availablePorts := rest } h1 h2

lemma try_next_port_inv (env : SerialEnv) (m : Manager) (h : stateOpenInv m) :
    stateOpenInv (try_next_port env m).1 := by
  unfold try_next_port
  by_cases hc : m.serialOpen = true ∨ m.state ≠ SMState.Disconnected
  · rw [if_pos hc]
    exact h
  · rw [if_neg hc]
    push_neg at hc
    exact try_next_loop_inv env m.availablePorts m (by simpa using hc.1) hc.2

lemma disconnect_inv (env : SerialEnv) (m : Manager) :
    stateOpenInv (disconnect env m).1 := by
  unfold disconnect
  by_cases hs : m.state = SMState.Identifying
  · rw [if_pos hs]
    simp [stateOpenInv]
  · rw [if_neg hs]
    exact try_next_port_inv env _ (by simp [stateOpenInv])

/-- Claim C2: after every completed manager operation or notification handler
(auto-connect, disconnect, send, identification outcome delivery, port added,
port removed, transport error), the transport is open if and only if the
manager state is `Identifying` or `Connected`: the state/transport coupling
invariant is preserved by every step. -/
theorem claim2_state_transport_inv (env : SerialEnv) (s : Step) (m : Manager)
    (h : stateOpenInv m) : stateOpenInv (Step.run env m s).1 := by
  cases s with
  | autoConnect avail v q => exact try_next_port_inv env _ h
  | disconnectCall => exact disconnect_inv env m
  | sendData d =>
    show stateOpenInv (send m d).1
    have hs : (send m d).1 = m := by
      unfold send
      split <;> rfl
    rw [hs]
    exact h
  | identOutcome success =>
    cases success with
    | false =>
      show stateOpenInv (deliver_failed env m).1
      unfold deliver_failed
      split
      · exact disconnect_inv env m
      · exact h
    | true =>
      show stateOpenInv (deliver_identified m).1
      unfold deliver_identified
      split
      · next hcond =>
        rw [Bool.and_eq_true] at hcond
        simp [on_identified, stateOpenInv, hcond.2]
      · exact h
  | portAdded p =>
    show stateOpenInv (on_port_added env p m).1
    unfold on_port_added
    split
    · exact try_next_port_inv env _ h
    · exact h
  | portRemoved p =>
    show stateOpenInv (handle_port_removed env p m).1
    unfold handle_port_removed
    split
    · exact disconnect_inv env m
    · exact h
  | transportError b =>
    cases b with
    | false => exact h
    | true => exact disconnect_inv env m

/-- Environment in which every candidate port opens and every identification
attempt is decided synchronously with success (a blocking identifier receiving
the expected response). -/
def envIdOk : SerialEnv :=
  { openOk := fun _ => true
    syncOutcome := fun _ => some true
    errorString := "open error" }

/-- Environment in which every candidate port opens and identification remains
pending (a non-blocking identifier still in flight when `start` returns). -/
def envPend : SerialEnv :=
  { openOk := fun _ => true
    syncOutcome := fun _ => none
    errorString := "open error" }

theorem claim2_witness :
    stateOpenInv initManager ∧
    stateOpenInv (Step.run envIdOk initManager
      (Step.autoConnect [⟨"COM1", some 1027, some 24577⟩] none none)).1 :=
  ⟨by decide, claim2_state_transport_inv envIdOk _ initManager (by decide)⟩

/-- Claim C9: a call to `auto_connect` made while the state is `Identifying`
or `Connected` leaves the manager state and the transport open/closed status
(and the open port) unchanged and emits no event - `_try_next_port` returns at
once because the state is not `Disconnected` - replacing only the stored
VID/PID filters and the candidate queue. -/
theorem claim9_auto_connect_frame (env : SerialEnv) (avail : List PortInfo)
    (v q : Option Nat) (m : Manager)
    (h : m.state = SMState.Identifying ∨ m.state = SMState.Connected) :
    auto_connect env avail v q m
      = ({ m with vid := v, pid := q, availablePorts := avail }, []) := by
  have hne : m.state ≠ SMState.Disconnected := by
    rcases h with h | h <;> simp [h]
  unfold auto_connect try_next_port
  rw [if_pos (Or.inr hne)]

/-- A manager connected on COM1, used as the concrete frame-claim input. -/
def c9m : Manager :=
  { initManager with
      state := SMState.Connected
      serialOpen := true
      serialPort := "COM1" }

theorem claim9_witness :
    (c9m.state = SMState.Identifying ∨ c9m.state = SMState.Connected) ∧
    auto_connect envIdOk [⟨"COM9", none, none⟩] (some 3) none c9m
      = ({ c9m with
            vid := some 3
            pid := none
            availablePorts := [⟨"COM9", none, none⟩] }, []) :=
  ⟨Or.inr rfl,
   claim9_auto_connect_frame envIdOk [⟨"COM9", none, none⟩] (some 3) none c9m
     (Or.inr rfl)⟩

/-- Claim C10: `_on_identified` disconnects the identifier signals from the
manager slots before emitting `connected`, so after it completes the manager
is no longer subscribed and a later `identified` or `failed` signal from the
same identifier changes nothing and emits nothing. -/
theorem claim10_no_stale_after_connected (env : SerialEnv) (m : Manager) :
    (on_identified m).1.identifierConnected = false ∧
    (on_identified m).2 = [Event.connected m.serialPort] ∧
    deliver_identified (on_identified m).1 = ((on_identified m).1, []) ∧
    deliver_failed env (on_identified m).1 = ((on_identified m).1, []) := by
  refine ⟨rfl, rfl, ?_, ?_⟩ <;>
    simp [on_identified, deliver_identified, deliver_failed]

/-- The remaining viable candidate in the C1 scenario. -/
def c1p2 : PortInfo := ⟨"COM2", none, none⟩

/-- A manager mid-identification on COM1 with one remaining candidate COM2
that passes the (empty) filters and would open successfully. -/
def c1m : Manager :=
  { initManager with
      state := SMState.Identifying
      serialOpen := true
      serialPort := "COM1"
      availablePorts := [c1p2]
      identifierConnected := true
      readyReadConnected := false }

/-- Claim C1, evaluated at the failing input: when the identifier signals
`failed` while the state is `Identifying`, the slot is `SerialManager.disconnect`,
which closes the transport, sets `Disconnected` and suppresses the
`disconnected` event - but, because `_try_next_port()` sits inside the
`previous_state != IDENTIFYING` branch, the try-next-candidate loop does NOT
resume: the viable candidate COM2 is left untouched in the queue and no open
is attempted.  The last conjunct shows that resuming the loop (what the claim
and the specification say happens) would have moved the manager to
`Identifying` on COM2. -/
theorem claim1_failed_no_resume :
    deliver_failed envPend c1m
      = ({ c1m with serialOpen := false, state := SMState.Disconnected }, []) ∧
    (deliver_failed envPend c1m).1.availablePorts = [c1p2] ∧
    (try_next_port envPend (deliver_failed envPend c1m).1).1.state
      = SMState.Identifying ∧
    (try_next_port envPend (deliver_failed envPend c1m).1).1.serialPort = "COM2" := by
  refine ⟨?_, ?_, ?_, ?_⟩ <;> decide

/-- No call of `PortMonitor._scan` can ever emit a `port_removed`: the second
loop iterates over the NEW snapshot, and the name of a snapshot port is always
in `current_names`, hence never in `known - current_names`. -/
lemma scan_removed_eq_nil (known : List String) (ports : List PortInfo) :
    scan_removed known ports = [] := by
  unfold scan_removed
  apply List.filter_eq_nil_iff.mpr
  intro p hp
  have hmem : p.portName ∈ ports.map PortInfo.portName :=
    List.mem_map_of_mem PortInfo.portName hp
  have hc : (ports.map PortInfo.portName).contains p.portName = true :=
    List.elem_iff.mpr hmem
  rw [hc]
  simp

/-- Claim C3, evaluated at the failing input: remembered set {COM1, COM2} and
new snapshot [COM1].  The claim requires exactly one `port_removed` for COM2;
the scan emits none (and, in fact, `scan_removed_eq_nil` shows it can never
emit any), while the remembered set is still replaced by the snapshot names,
so the disappearance of COM2 is silently forgotten. -/
theorem claim3_scan_never_removes :
    scan_removed ["COM1", "COM2"] [⟨"COM1", none, none⟩] = [] ∧
    scan_added ["COM1", "COM2"] [⟨"COM1", none, none⟩] = [] ∧
    scan_new_known [⟨"COM1", none, none⟩] = ["COM1"] := by
  refine ⟨scan_removed_eq_nil _ _, ?_, ?_⟩ <;> decide

/-- `pythonStrip` only deletes bytes: the stripped response is a sublist of
the received response. -/
lemma pythonStrip_sublist (r : List Nat) : List.Sublist (pythonStrip r) r := by
  have h1 : List.Sublist (r.dropWhile isAsciiSpace) r :=
    List.dropWhile_sublist isAsciiSpace
  have h2 : List.Sublist ((r.dropWhile isAsciiSpace).reverse.dropWhile isAsciiSpace)
      (r.dropWhile isAsciiSpace).reverse :=
    List.dropWhile_sublist isAsciiSpace
  have h3 := h2.reverse
  rw [List.reverse_reverse] at h3
  exact h3.trans h1

/-- Claim C5, counterexample: the response is `b" OK"` (a leading space) and
the expected response is `b"OK"`.  `BlockingIdentifier.start` uses Python
`bytes.strip()`, which removes leading whitespace too, and signals
`identified`; trimming only trailing whitespace, as the claim states, would
leave `b" OK"` unequal to `b"OK"` and signal `failed`. -/
theorem claim5_counterexample :
    (blocking_start [73, 68] [79, 75] (some [32, 79, 75])).2 = [IdSignal.identified] ∧
    (blocking_start_spec_trailing [73, 68] [79, 75] (some [32, 79, 75])).2
      = [IdSignal.failed] := by
  refine ⟨?_, ?_⟩ <;> decide

/-- Claim C5 as amended: the blocking identifier writes the command and waits
up to the timeout; with no response it signals `failed`; with a response it
signals `identified` exactly when the response with leading AND trailing
whitespace stripped (Python `bytes.strip()`) equals the expected response,
and `failed` otherwise; stripping only deletes bytes of the response. -/
theorem claim5_blocking_strip (cmd e r : List Nat) :
    blocking_start cmd e none = ([cmd], [IdSignal.failed]) ∧
    ((blocking_start cmd e (some r)).2 = [IdSignal.identified] ↔ pythonStrip r = e) ∧
    ((blocking_start cmd e (some r)).2 = [IdSignal.failed] ↔ pythonStrip r ≠ e) ∧
    (blocking_start cmd e (some r)).1 = [cmd] ∧
    List.Sublist (pythonStrip r) r := by
  refine ⟨rfl, ?_, ?_, ?_, pythonStrip_sublist r⟩ <;>
    · unfold blocking_start
      by_cases hr : pythonStrip r = e <;> simp [hr]

theorem claim5_witness :
    (blocking_start [73, 68] [79, 75] (some [79, 75, 13, 10])).2
      = [IdSignal.identified] :=
  (claim5_blocking_strip [73, 68] [79, 75] [79, 75, 13, 10]).2.1.mpr (by decide)

/-- A manager connected on COM1 with an empty candidate queue. -/
def mConnectedCOM1 : Manager :=
  { initManager with
      state := SMState.Connected
      serialOpen := true
      serialPort := "COM1" }

/-- Claim C6, counterexample: a `port_added` notification handled while the
manager is `Connected` appends the port to the candidate queue, leaving the
queue non-empty in a state other than `Disconnected`. -/
theorem claim6_counterexample :
    (on_port_added envPend ⟨"COM9", none, none⟩ mConnectedCOM1).1.state
      = SMState.Connected ∧
    (on_port_added envPend ⟨"COM9", none, none⟩ mConnectedCOM1).1.availablePorts
      = [⟨"COM9", none, none⟩] := by
  refine ⟨?_, ?_⟩ <;> decide

/-- Claim C6 as amended: `_on_port_added` appends the port to the candidate
queue regardless of state - while `Identifying` or `Connected` it changes
nothing else and emits nothing, so the queue can be non-empty outside
`Disconnected`; the queue is cleared when identification succeeds
(`_on_identified`). -/
theorem claim6_port_added_appends (env : SerialEnv) (p : PortInfo) (m : Manager)
    (h : m.state ≠ SMState.Disconnected) :
    on_port_added env p m
      = ({ m with availablePorts := m.availablePorts ++ [p] }, []) ∧
    (on_identified m).1.availablePorts = [] := by
  refine ⟨?_, rfl⟩
  unfold on_port_added
  rw [if_neg]
  intro hc
  exact h hc.1

theorem claim6_witness :
    mConnectedCOM1.state ≠ SMState.Disconnected ∧
    on_port_added envPend ⟨"COM9", none, none⟩ mConnectedCOM1
      = ({ mConnectedCOM1 with availablePorts := [⟨"COM9", none, none⟩] }, []) :=
  ⟨by decide,
   (claim6_port_added_appends envPend ⟨"COM9", none, none⟩ mConnectedCOM1
     (by decide)).1⟩

/-- With an empty candidate queue, `disconnect` settles immediately: the
transport is closed, the state becomes `Disconnected`, and one `disconnected`
event fires unless the previous state was `Identifying`. -/
lemma disconnect_empty_queue (env : SerialEnv) (m : Manager)
    (h : m.availablePorts = []) :
    disconnect env m
      = ({ m with serialOpen := false, state := SMState.Disconnected },
         if m.state = SMState.Identifying then [] else [Event.disconnected]) := by
  by_cases hs : m.state = SMState.Identifying
  · simp [disconnect, hs]
  · simp [disconnect, hs, try_next_port, try_next_loop, h]

/-- Claim C7, counterexample: from `Connected` with an empty queue, calling
`disconnect()` twice in a row produces TWO `disconnected` events, because the
second call (previous state `Disconnected`, not `Identifying`) emits again. -/
theorem claim7_counterexample :
    ((disconnect envPend mConnectedCOM1).2 ++
        (disconnect envPend (disconnect envPend mConnectedCOM1).1).2).count
      Event.disconnected = 2 := by
  decide

/-- Claim C7 as amended: calling `disconnect()` twice in a row when no
candidates remain leaves the manager `Disconnected`, and the two calls emit
one `disconnected` event each unless the previous state of that call was
`Identifying` - so one event when starting from `Identifying` and two events
from every other starting state (the claim said at most one). -/
theorem claim7_disconnect_twice (env : SerialEnv) (m : Manager)
    (h : m.availablePorts = []) :
    (disconnect env (disconnect env m).1).1.state = SMState.Disconnected ∧
    ((disconnect env m).2 ++ (disconnect env (disconnect env m).1).2).count
        Event.disconnected
      = (if m.state = SMState.Identifying then 1 else 2) := by
  have h1 := disconnect_empty_queue env m h
  have hq1 : (disconnect env m).1.availablePorts = [] := by
    rw [h1]
    exact h
  have h2 := disconnect_empty_queue env (disconnect env m).1 hq1
  have hst1 : (disconnect env m).1.state = SMState.Disconnected := by
    rw [h1]
  have e1 : (disconnect env m).2
      = if m.state = SMState.Identifying then [] else [Event.disconnected] := by
    rw [h1]
  have e2 : (disconnect env (disconnect env m).1).2 = [Event.disconnected] := by
    rw [h2, hst1]
    simp
  refine ⟨?_, ?_⟩
  · rw [h2]
  · rw [e1, e2]
    by_cases hs : m.state = SMState.Identifying
    · rw [if_pos hs, if_pos hs]
      decide
    · rw [if_neg hs, if_neg hs]
      decide

/-- A manager mid-identification on COM1 with an empty candidate queue. -/
def mIdentCOM1 : Manager :=
  { initManager with
      state := SMState.Identifying
      serialOpen := true
      serialPort := "COM1"
      identifierConnected := true
      readyReadConnected := false }

theorem claim7_witness :
    mIdentCOM1.availablePorts = [] ∧
    (disconnect envPend (disconnect envPend mIdentCOM1).1).1.state
      = SMState.Disconnected ∧
    ((disconnect envPend mIdentCOM1).2 ++
        (disconnect envPend (disconnect envPend mIdentCOM1).1).2).count
      Event.disconnected
      = (if mIdentCOM1.state = SMState.Identifying then 1 else 2) :=
  ⟨rfl,
   (claim7_disconnect_twice envPend mIdentCOM1 rfl).1,
   (claim7_disconnect_twice envPend mIdentCOM1 rfl).2⟩

/-- A manager connected on COM1 with COM2 still waiting in the queue. -/
def c8m : Manager :=
  { initManager with
      state := SMState.Connected
      serialOpen := true
      serialPort := "COM1"
      availablePorts := [⟨"COM2", none, none⟩] }

/-- Claim C8, counterexample: the active port COM1 is removed while a viable
candidate COM2 sits in the queue.  The handler does call `disconnect()`, but
`disconnect` resumes the try-next-candidate loop, which opens COM2 and (with a
synchronously succeeding identifier) reconnects: the handler completes with
state `Connected` on COM2, and a subsequent `send` writes - not the no-op the
claim asserts. -/
theorem claim8_counterexample :
    (handle_port_removed envIdOk ⟨"COM1", none, none⟩ c8m).1.state
      = SMState.Connected ∧
    (handle_port_removed envIdOk ⟨"COM1", none, none⟩ c8m).1.serialPort = "COM2" ∧
    (send (handle_port_removed envIdOk ⟨"COM1", none, none⟩ c8m).1 [1, 2]).2
      = [[1, 2]] := by
  refine ⟨?_, ?_, ?_⟩ <;> decide

/-- Claim C8 as amended: a `port_removed` for the currently open port has
exactly the effect of calling `disconnect()`; when additionally the manager is
`Connected` and no candidates remain, this transitions to `Disconnected`,
fires `disconnected` exactly once and makes a subsequent `send` a no-op (with
viable candidates remaining, `disconnect` resumes the candidate loop and may
reconnect immediately).  A `port_removed` for any other port only removes that
name from the candidate queue, with no other side effects. -/
theorem claim8_port_removed (env : SerialEnv) (p : PortInfo) (m : Manager)
    (d : List Nat) :
    (m.serialOpen = true ∧ m.serialPort = p.portName →
      handle_port_removed env p m = disconnect env m) ∧
    (m.serialOpen = true ∧ m.serialPort = p.portName ∧
        m.state = SMState.Connected ∧ m.availablePorts = [] →
      (handle_port_removed env p m).1.state = SMState.Disconnected ∧
      (handle_port_removed env p m).2 = [Event.disconnected] ∧
      (send (handle_port_removed env p m).1 d).2 = []) ∧
    (¬ (m.serialOpen = true ∧ m.serialPort = p.portName) →
      handle_port_removed env p m
        = ({ m with availablePorts :=
              m.availablePorts.filter (fun q => q.portName != p.portName) }, [])) := by
  refine ⟨?_, ?_, ?_⟩
  · intro hc
    unfold handle_port_removed
    rw [if_pos hc]
  · rintro ⟨ho, hp, hst, hq⟩
    have heq : handle_port_removed env p m = disconnect env m := by
      unfold handle_port_removed
      rw [if_pos ⟨ho, hp⟩]
    have hd := disconnect_empty_queue env m hq
    rw [heq, hd]
    refine ⟨rfl, ?_, ?_⟩
    · rw [hst]
      simp
    · simp [send]
  · intro hc
    unfold handle_port_removed
    rw [if_neg hc]

theorem claim8_witness :
    (handle_port_removed envPend ⟨"COM1", none, none⟩ mConnectedCOM1).1.state
      = SMState.Disconnected ∧
    (handle_port_removed envPend ⟨"COM1", none, none⟩ mConnectedCOM1).2
      = [Event.disconnected] ∧
    (send (handle_port_removed envPend ⟨"COM1", none, none⟩ mConnectedCOM1).1
      [7]).2 = [] :=
  (claim8_port_removed envPend ⟨"COM1", none, none⟩ mConnectedCOM1 [7]).2.1
    ⟨rfl, rfl, rfl, rfl⟩

/-- Once a `SimpleIdentifier` has signalled (timer stopped, `readyRead`
subscription removed), no further occurrence invokes any of its slots. -/
lemma run_id_occs_dead (e : List Nat) (os : List IdOcc) :
    run_id_occs e ⟨false, false⟩ os = (⟨false, false⟩, []) := by
  induction os with
  | nil => rfl
  | cons o os ih =>
    cases o <;> simp [run_id_occs, id_occ_enabled, ih]

/-- From a freshly started `SimpleIdentifier`, any sequence of occurrences
produces at most one signal, and exactly one once the run is complete (the
timer no longer armed: either it fired, or data arrival stopped it). -/
lemma run_id_occs_started (e : List Nat) (os : List IdOcc) (s : SimpleIdState) :
    (run_id_occs e (simple_start s) os).2.length ≤ 1 ∧
    ((run_id_occs e (simple_start s) os).1.timerActive = false →
      (run_id_occs e (simple_start s) os).2.length = 1) := by
  have hs : simple_start s = ⟨true, true⟩ := rfl
  rw [hs]
  cases os with
  | nil =>
    refine ⟨by simp [run_id_occs], ?_⟩
    intro h
    cases h
  | cons o os =>
    cases o with
    | dataReady resp =>
      by_cases hr : pythonStrip resp = e <;>
        simp [run_id_occs, id_occ_enabled, simple_on_ready_read, hr,
          run_id_occs_dead]
    | timerFire =>
      simp [run_id_occs, id_occ_enabled, simple_on_timeout, run_id_occs_dead]

/-- Claim C4, counterexample: a non-blocking identifier is started (arming its
timer) and `SerialManager.disconnect` preempts the attempt while the state is
`Identifying`.  `disconnect` takes no reference to the identifier: the
identifier state is untouched (its timer stays armed) and the manager stays
subscribed to the identifier signals (`identifierConnected` still true after
the disconnect).  When the armed timer then fires, `_on_timeout` emits
`failed`, and that stale signal IS delivered into the manager - where it even
causes a further transition, emitting a `disconnected` event, because the
state is no longer `Identifying`.  This refutes the claimed teardown. -/
theorem claim4_counterexample :
    (simple_start ⟨false, false⟩).timerActive = true ∧
    (disconnect envPend mIdentCOM1).1.identifierConnected = true ∧
    (simple_on_timeout (simple_start ⟨false, false⟩)).2 = [IdSignal.failed] ∧
    (deliver_failed envPend (disconnect envPend mIdentCOM1).1).2
      = [Event.disconnected] := by
  refine ⟨rfl, ?_, rfl, ?_⟩ <;> decide

/-- Claim C4 as amended: each `start` call signals exactly one of
`identified`/`failed` - the blocking variant within `start` itself, the
non-blocking variant once its attempt is driven to completion (its timer no
longer armed), with never more than one signal along the way.  However, a
`disconnect()` that preempts an attempt mid-flight (state `Identifying`) does
NOT tear the identifier down: it leaves the manager subscription to the
identifier signals in place (and never touches the identifier timer), so the
eventual `failed` is still delivered afterwards. -/
theorem claim4_exactly_one_signal (cmd e : List Nat) (resp : Option (List Nat))
    (os : List IdOcc) (s : SimpleIdState) (env : SerialEnv) (m : Manager)
    (hrun : (run_id_occs e (simple_start s) os).1.timerActive = false)
    (hm : m.state = SMState.Identifying) :
    (blocking_start cmd e resp).2.length = 1 ∧
    (run_id_occs e (simple_start s) os).2.length = 1 ∧
    (disconnect env m).1.identifierConnected = m.identifierConnected := by
  refine ⟨?_, (run_id_occs_started e os s).2 hrun, ?_⟩
  · unfold blocking_start
    cases resp with
    | none => rfl
    | some r => by_cases hr : pythonStrip r = e <;> simp [hr]
  · rw [disconnect_eq_from_identifying env m hm]
    rfl

theorem claim4_witness :
    (run_id_occs [79, 75] (simple_start ⟨false, false⟩)
      [IdOcc.timerFire]).1.timerActive = false ∧
    mIdentCOM1.state = SMState.Identifying ∧
    ((blocking_start [73] [79, 75] (some [79, 75])).2.length = 1 ∧
     (run_id_occs [79, 75] (simple_start ⟨false, false⟩)
       [IdOcc.timerFire]).2.length = 1 ∧
     (disconnect envPend mIdentCOM1).1.identifierConnected
       = mIdentCOM1.identifierConnected) :=
  ⟨by decide, rfl,
   claim4_exactly_one_signal [73] [79, 75] (some [79, 75]) [IdOcc.timerFire]
     ⟨false, false⟩ envPend mIdentCOM1 (by decide) rfl⟩
